import Mathlib

/-!
Shallow embedding of the control-mode arbiter, gating conditions, LED
indicator logic, record tracker, model hot-reload trigger and drivetrain
setup of `donkeycar/templates/complete.py`, together with theorems that
settle the specification claims about them.

Python `None` is modelled by `Option.none`; float channel values are
modelled as rationals (the arbiter performs only multiplexing and a single
multiplication, so the embedding is exact on the structure of the code).
Python truthiness of an optional number (`if x:`) is `none`/zero ↦ false,
any other value ↦ true.
-/

set_option autoImplicit false

/-- Python truthiness of an optional numeric value: `None` and `0.0` are
falsy, every other number is truthy. -/
def pyTruthy (v : Option ℚ) : Bool :=
  match v with
  | none => false
  | some x => x != 0

/-- Result record of `DriveMode.run` in `complete.py`: the final blended
`(angle, throttle, speed, angular_velocity)` tuple, each component
nullable. -/
structure DriveModeOutput where
  angle : Option ℚ
  throttle : Option ℚ
  speed : Option ℚ
  angularVelocity : Option ℚ
deriving Repr, DecidableEq

/-- Embedding of `DriveMode.run` (complete.py lines 460-473).
`aiThrottleMult` is `cfg.AI_THROTTLE_MULT`, captured from the enclosing
scope in the source. -/
def DriveMode.run (aiThrottleMult : ℚ) (mode : String)
    (user_angle user_throttle pilot_angle pilot_throttle
     pilot_speed pilot_angular_velocity : Option ℚ) : DriveModeOutput :=
  if mode == "user" then
    ⟨user_angle, user_throttle, none, none⟩
  else if mode == "local_angle" then
    ⟨some (if pyTruthy pilot_angle then pilot_angle.getD 0 else 0),
     user_throttle, none, none⟩
  else
    ⟨some (if pyTruthy pilot_angle then pilot_angle.getD 0 else 0),
     some (if pyTruthy pilot_throttle
           then pilot_throttle.getD 0 * aiThrottleMult else 0),
     pilot_speed, pilot_angular_velocity⟩

/-- Embedding of `PilotCondition.run` (complete.py lines 142-147). -/
def PilotCondition.run (mode : String) : Bool :=
  if mode == "user" then false else true

/-- Embedding of `AiRunCondition.run` (complete.py lines 551-558). -/
def AiRunCondition.run (mode : String) : Bool :=
  if mode == "user" then false else true

/-- Embedding of `SpeedControlCondition.run` (complete.py lines 152-158);
`have_speed_control` is the constructor argument captured at startup. -/
def SpeedControlCondition.run (have_speed_control : Bool) (mode : String) : Bool :=
  have_speed_control && (mode == "local")

/-- Embedding of `NotCondition.run` (complete.py lines 160-162). -/
def NotCondition.run (condition : Bool) : Bool :=
  !condition

/-- Embedding of `is_velocity_model` (complete.py line 82). -/
def is_velocity_model (model_type : String) : Bool :=
  model_type.endsWith "velocity"

/-- Embedding of `have_speed_control` (complete.py line 83): the
speed-control capability flag computed once at startup. -/
def have_speed_control (haveOdom : Bool) (model_type : String) : Bool :=
  haveOdom && is_velocity_model model_type

/-- Embedding of `AiRecordingCondition.run` (complete.py lines 563-570). -/
def AiRecordingCondition.run (mode : String) (recording : Bool) : Bool :=
  if mode == "user" then recording else true

/-- An RGB colour triple, as produced by `get_record_alert_color`. -/
abbrev Color := ℤ × ℤ × ℤ

/-- Embedding of `LedConditionLogic.run` (complete.py lines 167-203).
The side effects on the LED hardware are not modelled; the returned blink
rate is (0 = off, negative = solid on, positive = rate).  `model_type` and
`recCountAlertBlinkRate` (= `cfg.REC_COUNT_ALERT_BLINK_RATE`) are captured
from the enclosing scope in the source.  The record-count alert channel
carries either `0` (falsy) or a colour tuple (always truthy in Python,
even `(0,0,0)`), hence it is an `Option Color` here and the source's
truthiness test is `Option.isSome`. -/
def LedConditionLogic.run (model_type : String) (recCountAlertBlinkRate : ℚ)
    (mode : String) (recording : Bool) (recording_alert : Option Color)
    (behavior_state : Option ℤ) (model_file_changed : Bool)
    (track_loc : Option ℤ) : ℚ :=
  if track_loc.isSome then -1
  else if model_file_changed then 1/10
  else if recording_alert.isSome then recCountAlertBlinkRate
  else if behavior_state.isSome && (model_type == "behavior") then -1
  else if recording then -1
  else if mode == "user" then 1
  else if mode == "local_angle" then 1/2
  else if mode == "local" then 1/10
  else 0

/-- The mode-based blink rate: the last block of `LedConditionLogic.run`. -/
def modeBlinkRate (mode : String) : ℚ :=
  if mode == "user" then 1
  else if mode == "local_angle" then 1/2
  else if mode == "local" then 1/10
  else 0

/-- A prioritised rule list: each rule is a matching condition paired with
the blink rate it yields. -/
def firstMatch : List (Bool × ℚ) → ℚ
  | [] => 0
  | (cond, rate) :: rest => if cond then rate else firstMatch rest

/-- The indicator rules of the spec, in the claimed priority order:
known-location, model-just-reloaded, record-count alert, behavior-state,
active-recording, mode-based (which always matches). -/
def ledRules (model_type : String) (recCountAlertBlinkRate : ℚ)
    (mode : String) (recording : Bool) (recording_alert : Option Color)
    (behavior_state : Option ℤ) (model_file_changed : Bool)
    (track_loc : Option ℤ) : List (Bool × ℚ) :=
  [ (track_loc.isSome, -1),
    (model_file_changed, 1/10),
    (recording_alert.isSome, recCountAlertBlinkRate),
    (behavior_state.isSome && (model_type == "behavior"), -1),
    (recording, -1),
    (true, modeBlinkRate mode) ]

/-- Embedding of `get_record_alert_color` (complete.py lines 215-220):
scan `cfg.RECORD_ALERT_COLOR_ARR` and keep the colour of the last
threshold that `num_records` reaches. -/
def get_record_alert_color (alertColorArr : List (ℤ × Color))
    (num_records : ℤ) : Color :=
  alertColorArr.foldl
    (fun col cc => if num_records ≥ cc.1 then cc.2 else col) (0, 0, 0)

/-- Mutable state of `RecordTracker` (complete.py lines 222-226). -/
structure RecordTrackerState where
  last_num_rec_print : ℤ
  dur_alert : ℤ
  force_alert : ℤ
deriving Repr, DecidableEq

/-- Embedding of `RecordTracker.run` (complete.py lines 228-248).
`recCountAlert` is `cfg.REC_COUNT_ALERT`, `recCountAlertCyc` is
`cfg.REC_COUNT_ALERT_CYC` and `alertColorArr` is
`cfg.RECORD_ALERT_COLOR_ARR`.  Python's `//` and `%` on integers are floor
division and floor modulus, i.e. `Int.fdiv` and `Int.fmod`.  The return
value is `0` (no alert, modelled `none`) or a colour tuple.  The console
prints are side effects with no bearing on state or result and are not
modelled. -/
def RecordTracker.run (recCountAlert recCountAlertCyc : ℤ)
    (alertColorArr : List (ℤ × Color)) (s : RecordTrackerState)
    (num_records : Option ℤ) : RecordTrackerState × Option Color :=
  match num_records with
  | none => (s, none)
  | some n =>
    let s1 :=
      if s.last_num_rec_print != n || s.force_alert != 0 then
        if Int.fmod n recCountAlert == 0 || s.force_alert != 0 then
          { last_num_rec_print := n,
            dur_alert := Int.fdiv n recCountAlert * recCountAlertCyc,
            force_alert := 0 }
        else
          { s with last_num_rec_print := n }
      else s
    let s2 :=
      if s1.dur_alert > 0 then { s1 with dur_alert := s1.dur_alert - 1 }
      else s1
    if s2.dur_alert != 0 then
      (s2, some (get_record_alert_color alertColorArr n))
    else
      (s2, none)

/-- Modelled from the spec: the debounce stage `DelayedTrigger` of
`donkeycar.parts.transform` is imported by `complete.py` (line 36) and
instantiated with N = 100 (line 356) but its code is not under `src/`.
Spec 4.4: "a debounce stage starts an N-tick countdown on first dirty
signal and restarts it on any further dirty signal before expiry, emitting
a single fire signal only after N consecutive quiet ticks".  State:
`delay` is N, `countdown` is the remaining quiet ticks (0 = idle). -/
structure DelayedTrigger where
  delay : ℕ
  countdown : ℕ
deriving Repr, DecidableEq

/-- Modelled from the spec: one tick of the debounce stage.  A dirty
signal (re)starts the N-tick countdown; a quiet tick decrements an active
countdown and fires exactly when it reaches zero, i.e. after N consecutive
quiet ticks. -/
def DelayedTrigger.run (s : DelayedTrigger) (dirty : Bool) :
    DelayedTrigger × Bool :=
  if dirty then ({ s with countdown := s.delay }, false)
  else if s.countdown > 0 then
    let c := s.countdown - 1
    ({ s with countdown := c }, c == 0)
  else (s, false)

/-- Run the debounce stage from its initial state (countdown idle) over
ticks `0, 1, ..., t`, where `dirtyAt s` says whether the watcher emitted a
dirty signal at tick `s`; the result is the stage's state and fire output
after processing tick `t`. -/
def debounceRun (dirtyAt : ℕ → Bool) (delay : ℕ) : ℕ → DelayedTrigger × Bool
  | 0 => DelayedTrigger.run ⟨delay, 0⟩ (dirtyAt 0)
  | t + 1 => DelayedTrigger.run (debounceRun dirtyAt delay t).1 (dirtyAt (t + 1))

/-- The dirty-signal trace of the claim: dirty at ticks 0, 50 and 200,
quiet everywhere else. -/
def claimTrace (t : ℕ) : Bool :=
  t == 0 || t == 50 || t == 200

/-- A loaded inference model, identified abstractly; the hot-reload logic
never inspects it. -/
abbrev Model := String

/-- A Python exception value, identified by its message. -/
abbrev Err := String

/-- Embedding of `load_model` (complete.py lines 279-283): calls
`kl.load(model_path)` with no exception handling of its own, so a failure
of the underlying loader propagates to the caller.  The loader `klLoad`
abstracts `kl.load`. -/
def load_model (klLoad : String → Except Err Model) (model_path : String) :
    Except Err Model :=
  klLoad model_path

/-- Embedding of `load_weights` (complete.py lines 285-293): wraps the
weight loading in try/except, printing the error on failure; the
previously loaded model is then kept unchanged. -/
def load_weights (loadW : String → Except Err Model) (current : Model)
    (weights_path : String) : Model :=
  match loadW weights_path with
  | Except.ok m => m
  | Except.error _ => current

/-- Embedding of the `.h5`/`.trt`/`.tflite`/`.savedmodel` reload callback
`reload_model` (complete.py lines 325-328): reloads the whole model via
`load_model`; any loader exception propagates out of the callback. -/
def reload_model (klLoad : String → Except Err Model)
    (filename : String) (_current : Model) : Except Err Model :=
  load_model klLoad filename

/-- Embedding of the `.json` reload callback `reload_weights`
(complete.py lines 338-342): derives the weights path and calls
`load_weights`, which catches internally, so this callback never raises. -/
def reload_weights (loadW : String → Except Err Model)
    (filename : String) (current : Model) : Except Err Model :=
  Except.ok (load_weights loadW (filename.replace ".json" ".weights") current)

/-- Modelled from the spec: the trigger stage `TriggeredCallback` of
`donkeycar.parts.transform` is imported by `complete.py` (line 36) and
bound to `model_reload_cb` (line 358) but its code is not under `src/`.
Spec 4.4: "a trigger stage invokes the bound reload callback exactly once
per fire signal, catching and logging any exception the callback raises —
a failed reload must not halt active driving; it logs and the vehicle
continues serving the previously loaded model".  The result is the model
being served after the tick; the `Except` wrapper records whether an
exception escaped the stage (the catch makes that impossible). -/
def TriggeredCallback.run (cb : String → Model → Except Err Model)
    (args : String) (trigger : Bool) (current : Model) :
    Except Err Model :=
  if trigger then
    match cb args current with
    | Except.ok m => Except.ok m
    | Except.error _ => Except.ok current
  else Except.ok current

/-- Startup configuration consulted by `add_drivetrain`. -/
structure DrivetrainCfg where
  donkey_gym : Bool
  drive_train_type : String
deriving Repr, DecidableEq

/-- Embedding of `add_drivetrain` (complete.py lines 1022-1190): the
result is the list of actuator parts added to the vehicle (by role name),
or an error had the function raised one.  The source is a plain
`if`/`elif` chain over `cfg.DRIVE_TRAIN_TYPE` with no `else` branch and no
`raise` statement, so every selector value returns normally; an unknown
selector falls through the chain and adds nothing. -/
def add_drivetrain (cfg : DrivetrainCfg) : Except Err (List String) :=
  if !cfg.donkey_gym && (cfg.drive_train_type != "MOCK") then
    if cfg.drive_train_type == "PWM_STEERING_THROTTLE" then
      Except.ok ["steering", "throttle"]
    else if cfg.drive_train_type == "I2C_SERVO" then
      Except.ok ["steering", "throttle"]
    else if cfg.drive_train_type == "DC_STEER_THROTTLE" then
      Except.ok ["steering", "throttle"]
    else if cfg.drive_train_type == "DC_TWO_WHEEL" then
      Except.ok ["left_motor", "right_motor"]
    else if cfg.drive_train_type == "DC_TWO_WHEEL_L298N" then
      Except.ok ["left_motor", "right_motor"]
    else if cfg.drive_train_type == "SERVO_HBRIDGE_2PIN" then
      Except.ok ["steering", "motor"]
    else if cfg.drive_train_type == "SERVO_HBRIDGE_3PIN" then
      Except.ok ["steering", "motor"]
    else if cfg.drive_train_type == "SERVO_HBRIDGE_PWM" then
      Except.ok ["steering", "motor"]
    else if cfg.drive_train_type == "MM1" then
      Except.ok ["robohat"]
    else if cfg.drive_train_type == "PIGPIO_PWM" then
      Except.ok ["steering", "throttle"]
    else
      Except.ok []
  else
    Except.ok []

/-- The drivetrain selectors handled by the `if`/`elif` chain of
`add_drivetrain`, plus the `MOCK` selector short-circuited at its top. -/
def knownDrivetrainTypes : List String :=
  ["MOCK", "PWM_STEERING_THROTTLE", "I2C_SERVO", "DC_STEER_THROTTLE",
   "DC_TWO_WHEEL", "DC_TWO_WHEEL_L298N", "SERVO_HBRIDGE_2PIN",
   "SERVO_HBRIDGE_3PIN", "SERVO_HBRIDGE_PWM", "MM1", "PIGPIO_PWM"]

/-- Claim C1: for every mode and every combination of inputs,
`DriveMode.run` returns exactly the blend table of the spec: mode `user`
yields `(user_angle, user_throttle, null, null)`; mode `local_angle`
yields `(pilot_angle if non-null/non-zero else 0.0, user_throttle, null,
null)`; any other mode yields `(pilot_angle if non-null/non-zero else 0.0,
pilot_throttle * AI_THROTTLE_MULT if pilot_throttle is non-null/non-zero
else 0.0, pilot_speed, pilot_angular_velocity)`. -/
theorem drive_mode_blend_table (mult : ℚ)
    (ua ut pa pt ps pav : Option ℚ) (mode : String) :
    DriveMode.run mult "user" ua ut pa pt ps pav = ⟨ua, ut, none, none⟩ ∧
    DriveMode.run mult "local_angle" ua ut pa pt ps pav =
      ⟨some (if pyTruthy pa then pa.getD 0 else 0), ut, none, none⟩ ∧
    (mode ≠ "user" → mode ≠ "local_angle" →
      DriveMode.run mult mode ua ut pa pt ps pav =
        ⟨some (if pyTruthy pa then pa.getD 0 else 0),
         some (if pyTruthy pt then pt.getD 0 * mult else 0), ps, pav⟩) := by
  refine ⟨rfl, rfl, fun h1 h2 => ?_⟩
  simp [DriveMode.run, h1, h2]

/-- Witness for C1: concrete evaluation in mode `local` with
`AI_THROTTLE_MULT = 2`, `pilot_angle = -1`, `pilot_throttle = 3`,
`pilot_speed = 5`, `pilot_angular_velocity = 2`. -/
theorem drive_mode_blend_table_witness :
    DriveMode.run 2 "local" none (some 1) (some (-1)) (some 3)
        (some 5) (some 2) =
      ⟨some (-1), some 6, some 5, some 2⟩ := by
  have h := (drive_mode_blend_table 2 none (some 1) (some (-1))
    (some 3) (some 5) (some 2) "local").2.2 (by decide) (by decide)
  rw [h]
  norm_num [pyTruthy]

/-- Claim C2: for every mode value, the run-pilot condition and the
ai-running condition both return true exactly when the mode is not
`user`. -/
theorem pilot_and_ai_run_conditions (mode : String) :
    PilotCondition.run mode = decide (mode ≠ "user") ∧
    AiRunCondition.run mode = decide (mode ≠ "user") := by
  constructor <;>
  · by_cases h : mode = "user" <;>
      simp [PilotCondition.run, AiRunCondition.run, h]

/-- Claim C3: `SpeedControlCondition.run` returns true exactly when the
speed-control capability flag is set and the mode equals `local`, and
`NotCondition` makes `use_throttle_control` the boolean negation of
`use_speed_control`, so exactly one of the two is true on every tick. -/
theorem speed_control_gating (hsc : Bool) (mode : String) :
    (SpeedControlCondition.run hsc mode = true ↔
      (hsc = true ∧ mode = "local")) ∧
    NotCondition.run (SpeedControlCondition.run hsc mode) =
      !(SpeedControlCondition.run hsc mode) ∧
    ((SpeedControlCondition.run hsc mode = true ∧
      NotCondition.run (SpeedControlCondition.run hsc mode) = false) ∨
     (SpeedControlCondition.run hsc mode = false ∧
      NotCondition.run (SpeedControlCondition.run hsc mode) = true)) := by
  refine ⟨?_, rfl, ?_⟩
  · simp [SpeedControlCondition.run]
  · cases h : SpeedControlCondition.run hsc mode <;>
      simp [NotCondition.run, h]

/-- Claim C4: for every reload callback and every exception it raises, the
trigger stage catches the exception and returns normally, continuing to
serve the previously loaded model; a reload failure never propagates. -/
theorem reload_callback_exceptions_contained
    (cb : String → Model → Except Err Model) (args : String)
    (trigger : Bool) (m : Model) :
    (∃ m2, TriggeredCallback.run cb args trigger m = Except.ok m2) ∧
    (∀ e, cb args m = Except.error e →
      TriggeredCallback.run cb args trigger m = Except.ok m) := by
  constructor
  · cases trigger <;> simp [TriggeredCallback.run]
    cases h : cb args m <;> simp
  · intro e he
    cases trigger <;> simp [TriggeredCallback.run, he]

/-- Witness for C4: the `.h5`-format callback `reload_model` with a loader
that raises; the trigger stage fires, catches, and keeps serving the prior
model. -/
theorem reload_callback_exceptions_contained_witness :
    TriggeredCallback.run
      (reload_model (fun _ => Except.error "load failed"))
      "mypilot.h5" true "prior_model" = Except.ok "prior_model" :=
  (reload_callback_exceptions_contained
    (reload_model (fun _ => Except.error "load failed"))
    "mypilot.h5" true "prior_model").2 "load failed" rfl

/-- Counterexample for C5: the drivetrain selector `OMNIWHEEL` is not one
of the known drivetrain types, yet `add_drivetrain` raises no error at
all — it returns normally having added no drivetrain parts, contradicting
the claim that a fatal ConfigurationError is raised. -/
theorem unknown_drivetrain_no_error_cx :
    "OMNIWHEEL" ∉ knownDrivetrainTypes ∧
    add_drivetrain ⟨false, "OMNIWHEEL"⟩ = Except.ok [] :=
  ⟨by decide, rfl⟩

/-- Amended claim C5: if the configured drivetrain selector is not one of
the known drivetrain types, the configuration is silently accepted —
`add_drivetrain` falls through its selector chain, adds no drivetrain
parts, and raises no error. -/
theorem unknown_drivetrain_silently_accepted (cfg : DrivetrainCfg)
    (hg : cfg.donkey_gym = false)
    (hu : cfg.drive_train_type ∉ knownDrivetrainTypes) :
    add_drivetrain cfg = Except.ok [] := by
  simp only [knownDrivetrainTypes, List.mem_cons, List.not_mem_nil,
    or_false, not_or] at hu
  obtain ⟨h1, h2, h3, h4, h5, h6, h7, h8, h9, h10, h11⟩ := hu
  simp [add_drivetrain, hg, h1, h2, h3, h4, h5, h6, h7, h8, h9, h10, h11]

/-- Witness for amended C5: the concrete unknown selector `OMNIWHEEL` on a
non-simulated configuration. -/
theorem unknown_drivetrain_silently_accepted_witness :
    add_drivetrain ⟨false, "OMNIWHEEL"⟩ = Except.ok [] :=
  unknown_drivetrain_silently_accepted ⟨false, "OMNIWHEEL"⟩ rfl (by decide)

/-- Claim C6: when autonomous recording is enabled, the recording
condition returns true whenever the mode is not `user` and passes the
existing recording flag through unchanged when the mode is `user`; i.e. it
computes `(mode != user) OR recording`. -/
theorem ai_recording_condition (mode : String) (recording : Bool) :
    AiRecordingCondition.run mode recording =
      (decide (mode ≠ "user") || recording) := by
  by_cases h : mode = "user" <;> simp [AiRecordingCondition.run, h]

/-- Claim C7: the LED condition logic returns the blink rate of the first
matching rule in the priority order known-location, model-just-reloaded,
record-count alert, behavior-state, active-recording, mode-based; in the
mode-based case the rate is 1 for `user`, 1/2 for `local_angle`, 1/10 for
`local` and 0 otherwise (negative = solid on, 0 = off). -/
theorem led_condition_priority (model_type : String) (rate : ℚ)
    (mode : String) (recording : Bool) (recording_alert : Option Color)
    (behavior_state : Option ℤ) (model_file_changed : Bool)
    (track_loc : Option ℤ) :
    LedConditionLogic.run model_type rate mode recording recording_alert
        behavior_state model_file_changed track_loc =
      firstMatch (ledRules model_type rate mode recording recording_alert
        behavior_state model_file_changed track_loc) ∧
    modeBlinkRate "user" = 1 ∧
    modeBlinkRate "local_angle" = 1/2 ∧
    modeBlinkRate "local" = 1/10 ∧
    (mode ≠ "user" → mode ≠ "local_angle" → mode ≠ "local" →
      modeBlinkRate mode = 0) := by
  refine ⟨rfl, rfl, rfl, rfl, fun h1 h2 h3 => ?_⟩
  simp [modeBlinkRate, h1, h2, h3]

/-- Witness for C7: concrete evaluation with no higher-priority rule
matching and an unrecognised mode, yielding rate 0 (off). -/
theorem led_condition_priority_witness :
    LedConditionLogic.run "linear" 3 "stopped" false none none false none
      = firstMatch (ledRules "linear" 3 "stopped" false none none false
          none) ∧
    modeBlinkRate "stopped" = 0 := by
  have h := led_condition_priority "linear" 3 "stopped" false none none
    false none
  exact ⟨h.1, h.2.2.2.2 (by decide) (by decide) (by decide)⟩

/-- A dirty signal (re)starts the countdown at the configured delay and
never fires. -/
theorem DelayedTrigger.run_dirty (s : DelayedTrigger) :
    s.run true = ({ s with countdown := s.delay }, false) := rfl

/-- A quiet tick decrements an active countdown, firing exactly when it
reaches zero, and is a no-op on an idle stage. -/
theorem DelayedTrigger.run_quiet (s : DelayedTrigger) :
    s.run false =
      if s.countdown > 0 then
        ({ s with countdown := s.countdown - 1 }, s.countdown - 1 == 0)
      else (s, false) := rfl

/-- Unfolding equation of `debounceRun` at a successor tick. -/
theorem debounceRun_succ (dirtyAt : ℕ → Bool) (delay t : ℕ) :
    debounceRun dirtyAt delay (t + 1) =
      DelayedTrigger.run (debounceRun dirtyAt delay t).1 (dirtyAt (t + 1)) :=
  rfl

/-- Closed form of the debounce stage over a quiet stretch: if after tick
`n` the state is `⟨δ, c⟩` and ticks `n+1 .. n+k` are all quiet, then `j`
ticks into the stretch the countdown is `c - j` and a fire is emitted
exactly at the tick where an active countdown expires, i.e. at `j = c`
when `c > 0`. -/
theorem debounce_quiet_stretch (dirtyAt : ℕ → Bool) (delay n k c : ℕ)
    (hc : (debounceRun dirtyAt delay n).1 = ⟨delay, c⟩)
    (hq : ∀ j, n < j → j ≤ n + k → dirtyAt j = false) :
    ∀ j, j ≤ k →
      (debounceRun dirtyAt delay (n + j)).1 = ⟨delay, c - j⟩ ∧
      (0 < j → (debounceRun dirtyAt delay (n + j)).2 =
        decide (0 < c ∧ j = c)) := by
  intro j
  induction j with
  | zero => exact fun _ => ⟨by simpa using hc, fun h => absurd h (by omega)⟩
  | succ i ih =>
    intro hik
    have hi := (ih (by omega)).1
    have hdirty : dirtyAt (n + (i + 1)) = false := hq (n + (i + 1))
      (by omega) (by omega)
    have hstep : debounceRun dirtyAt delay (n + (i + 1)) =
        DelayedTrigger.run (debounceRun dirtyAt delay (n + i)).1
          (dirtyAt (n + (i + 1))) := rfl
    rw [hstep, hdirty, hi, DelayedTrigger.run_quiet]
    by_cases hci : (0 : ℕ) < c - i
    · rw [if_pos hci]
      refine ⟨by simp; omega, fun _ => ?_⟩
      rw [Bool.eq_iff_iff]
      simp only [beq_iff_eq, decide_eq_true_eq]
      omega
    · rw [if_neg hci]
      refine ⟨by simp; omega, fun _ => ?_⟩
      rw [Bool.eq_iff_iff]
      simp only [Bool.false_eq_true, false_iff, decide_eq_true_eq]
      omega

/-- The claim trace is quiet away from ticks 0, 50 and 200. -/
theorem claimTrace_quiet (j : ℕ) (h0 : j ≠ 0) (h50 : j ≠ 50)
    (h200 : j ≠ 200) : claimTrace j = false := by
  simp only [claimTrace, Bool.or_eq_false_iff, beq_eq_false_iff_ne, ne_eq]
  exact ⟨⟨h0, h50⟩, h200⟩

/-- State of the debounce stage after the dirty signal at tick 0. -/
theorem debounce_state_0 :
    debounceRun claimTrace 100 0 = (⟨100, 100⟩, false) := rfl

/-- State of the debounce stage after the quiet ticks 1 .. 49. -/
theorem debounce_state_49 :
    (debounceRun claimTrace 100 49).1 = ⟨100, 51⟩ := by
  have h := (debounce_quiet_stretch claimTrace 100 0 49 100
    (by rw [debounce_state_0])
    (fun j h1 h2 => claimTrace_quiet j (by omega) (by omega) (by omega))
    49 (le_refl 49)).1
  simpa using h

/-- State of the debounce stage after the dirty signal at tick 50. -/
theorem debounce_state_50 :
    debounceRun claimTrace 100 50 = (⟨100, 100⟩, false) := by
  have h : debounceRun claimTrace 100 50 =
      DelayedTrigger.run (debounceRun claimTrace 100 49).1
        (claimTrace 50) := rfl
  rw [h, debounce_state_49]
  rfl

/-- State of the debounce stage after tick 199: the countdown restarted at
tick 50 has long expired (firing at tick 150 on the way). -/
theorem debounce_state_199 :
    (debounceRun claimTrace 100 199).1 = ⟨100, 0⟩ := by
  have h := (debounce_quiet_stretch claimTrace 100 50 149 100
    (by rw [debounce_state_50])
    (fun j h1 h2 => claimTrace_quiet j (by omega) (by omega) (by omega))
    149 (le_refl 149)).1
  simpa using h

/-- State of the debounce stage after the dirty signal at tick 200. -/
theorem debounce_state_200 :
    debounceRun claimTrace 100 200 = (⟨100, 100⟩, false) := by
  have h : debounceRun claimTrace 100 200 =
      DelayedTrigger.run (debounceRun claimTrace 100 199).1
        (claimTrace 200) := rfl
  rw [h, debounce_state_199]
  rfl

/-- Counterexample for C8: on the trace with dirty signals at ticks 0, 50
and 200 and N = 100, the debounce stage emits a fire signal already at
tick 150 — earlier than tick 300 — because the countdown restarted by the
dirty signal at tick 50 expires after the 100 quiet ticks 51 .. 150,
before the dirty signal at tick 200 arrives; so fire is not emitted "only
once, at tick 300, never earlier". -/
theorem debounce_fires_early_cx :
    (debounceRun claimTrace 100 150).2 = true ∧ (150 : ℕ) < 300 := by
  have h := (debounce_quiet_stretch claimTrace 100 50 100 100
    (by rw [debounce_state_50])
    (fun j h1 h2 => claimTrace_quiet j (by omega) (by omega) (by omega))
    100 (le_refl 100)).2 (by omega)
  norm_num at h
  exact ⟨h, by omega⟩

/-- Amended claim C8: the debounce stage with N = 100 on the trace with
dirty signals at ticks 0, 50 and 200 emits exactly two fire signals in
ticks 0 .. 400, at ticks 150 and 300: each dirty signal arriving before
countdown expiry restarts the countdown, and a fire is emitted after each
run of 100 consecutive quiet ticks following a dirty signal — the dirty
at tick 50 (restarting the countdown of tick 0) leads to a fire at tick
150, and the dirty at tick 200 starts a fresh countdown firing at tick
300. -/
theorem debounce_fires_at_150_and_300 (t : ℕ) (ht : t ≤ 400) :
    (debounceRun claimTrace 100 t).2 = true ↔ (t = 150 ∨ t = 300) := by
  have hq1 : ∀ j, 0 < j → j ≤ 0 + 49 → claimTrace j = false :=
    fun j h1 h2 => claimTrace_quiet j (by omega) (by omega) (by omega)
  have hq2 : ∀ j, 50 < j → j ≤ 50 + 149 → claimTrace j = false :=
    fun j h1 h2 => claimTrace_quiet j (by omega) (by omega) (by omega)
  have hq3 : ∀ j, 200 < j → j ≤ 200 + 200 → claimTrace j = false :=
    fun j h1 h2 => claimTrace_quiet j (by omega) (by omega) (by omega)
  rcases show t = 0 ∨ (1 ≤ t ∧ t ≤ 49) ∨ t = 50 ∨ (51 ≤ t ∧ t ≤ 199) ∨
      t = 200 ∨ (201 ≤ t ∧ t ≤ 400) from by omega with
    h | h | h | h | h | h
  · subst h
    rw [debounce_state_0]
    simp
  · have hs := (debounce_quiet_stretch claimTrace 100 0 49 100
      (by rw [debounce_state_0]) hq1 t (by omega)).2 (by omega)
    simp only [Nat.zero_add] at hs
    rw [hs]
    simp only [decide_eq_true_eq]
    omega
  · subst h
    rw [debounce_state_50]
    simp
  · have hs := (debounce_quiet_stretch claimTrace 100 50 149 100
      (by rw [debounce_state_50]) hq2 (t - 50) (by omega)).2 (by omega)
    rw [show 50 + (t - 50) = t from by omega] at hs
    rw [hs]
    simp only [decide_eq_true_eq]
    omega
  · subst h
    rw [debounce_state_200]
    simp
  · have hs := (debounce_quiet_stretch claimTrace 100 200 200 100
      (by rw [debounce_state_200]) hq3 (t - 200) (by omega)).2 (by omega)
    rw [show 200 + (t - 200) = t from by omega] at hs
    rw [hs]
    simp only [decide_eq_true_eq]
    omega

/-- Witness for amended C8: tick 150 is within the considered horizon and
the debounce stage does fire there. -/
theorem debounce_fires_at_150_and_300_witness :
    (150 : ℕ) ≤ 400 ∧ (debounceRun claimTrace 100 150).2 = true :=
  ⟨by omega, (debounce_fires_at_150_and_300 150 (by omega)).mpr (Or.inl rfl)⟩

/-- Claim C9: the speed-control capability flag is the conjunction of
`cfg.HAVE_ODOM` and the model type ending in `velocity`, fixed at startup;
unless both hold, `use_speed_control` is false for every mode. -/
theorem speed_control_requires_odom_and_velocity_model
    (haveOdom : Bool) (model_type mode : String)
    (h : ¬(haveOdom = true ∧ model_type.endsWith "velocity" = true)) :
    have_speed_control haveOdom model_type =
      (haveOdom && model_type.endsWith "velocity") ∧
    SpeedControlCondition.run (have_speed_control haveOdom model_type)
      mode = false := by
  refine ⟨rfl, ?_⟩
  cases ho : haveOdom
  · simp [SpeedControlCondition.run, have_speed_control]
  · cases hv : model_type.endsWith "velocity"
    · simp [SpeedControlCondition.run, have_speed_control,
        is_velocity_model, hv]
    · exact absurd ⟨ho, hv⟩ h

/-- Witness for C9: odometry present but a non-velocity model type
(`linear`), in mode `local`; speed control stays off. -/
theorem speed_control_requires_odom_and_velocity_model_witness :
    SpeedControlCondition.run (have_speed_control true "linear") "local"
      = false :=
  (speed_control_requires_odom_and_velocity_model true "linear" "local"
    (by decide)).2

/-- Claim C10: on a tick where the record-count input is absent,
`RecordTracker.run` returns no alert immediately and leaves its whole
internal state (last printed count, alert duration, force-alert flag)
unchanged. -/
theorem record_tracker_none_is_noop (recCountAlert recCountAlertCyc : ℤ)
    (alertColorArr : List (ℤ × Color)) (s : RecordTrackerState) :
    RecordTracker.run recCountAlert recCountAlertCyc alertColorArr s none
      = (s, none) :=
  rfl

